import Mathlib

/-!
Verification of the threat-intelligence ingestion-and-scoring pipeline
(`RiskEngine`, `LLMAnalyzer`, `ThreatCollector` of `dashboard_backend`)
against its natural-language specification.

The Python sources are embedded shallowly: times (`datetime`) are rationals
measured in seconds, floats are rationals, Python `or` on an optional number
(where `None` and `0.0` are both falsy) is `pyOrQ` / `pyOrOptQ`, and Python
`or` on an optional string (where `None` and `""` are both falsy) is
`pyOrStr`.  Case mapping and slicing of Python strings act on the string's
character list.  The relational session with its commit/rollback and
uniqueness constraint, the external model client, and `json.loads` are
external collaborators of this core and are modelled by explicit state and
outcome parameters where the source consumes them.
-/

/-! ## Python primitives -/

/-- Python `x or d` for an optional number: `None` and `0.0` are falsy. -/
def pyOrQ (x : Option ℚ) (d : ℚ) : ℚ :=
  match x with
  | none => d
  | some v => if v = 0 then d else v

/-- Python `x or r` where `x` is an optional number and the result is kept
optional (used for `threat.analysis.risk_score = threat.analysis.risk_score or risk`). -/
def pyOrOptQ (x : Option ℚ) (r : ℚ) : Option ℚ :=
  match x with
  | none => some r
  | some v => if v = 0 then some r else some v

/-- Python `s or d` for an optional string: `None` and `""` are falsy. -/
def pyOrStr (x : Option String) (d : String) : String :=
  match x with
  | none => d
  | some s => if s = "" then d else s

/-- Python `s.lower()`. -/
def pyLower (s : String) : String := String.mk (s.data.map Char.toLower)

/-- Python `s.upper()`. -/
def pyUpper (s : String) : String := String.mk (s.data.map Char.toUpper)

/-- Python `s[:n]`. -/
def pyTake (s : String) (n : ℕ) : String := String.mk (s.data.take n)

/-- Does the first list start the second one? -/
def startsWithL : List Char → List Char → Bool
  | [], _ => true
  | _ :: _, [] => false
  | a :: as, b :: bs => a == b && startsWithL as bs

/-- Does the first list occur contiguously inside the second one? -/
def containsSubList (needle : List Char) : List Char → Bool
  | [] => needle.isEmpty
  | c :: rest => startsWithL needle (c :: rest) || containsSubList needle rest

/-- Python substring membership `needle in hay`. -/
def containsSub (needle hay : String) : Bool :=
  containsSubList needle.data hay.data

/-- Python `any(keyword in hay for keyword in keywords)`. -/
def containsAny (hay : String) (keywords : List String) : Bool :=
  keywords.any (fun k => containsSub k hay)

/-- Python `max(a, b)` on numbers, kept kernel-computable. -/
def pymax (a b : ℚ) : ℚ := if a < b then b else a

/-- Python `min(a, b)` on numbers, kept kernel-computable. -/
def pymin (a b : ℚ) : ℚ := if b < a then b else a

/-! ## Data model (`threat_models.py`)

Rows as the pipeline manipulates them through the session: a `Threat` owns
an optional `ThreatAnalysis` and a list of `ThreatCategory` rows; database
surrogate ids and the back-references are not part of the logical state. -/

/-- The `deployment` field of the `affected_products` JSON payload
(`affected_products.get("deployment", "")`: a missing key reads as `""`).
`none` at the use sites stands for an absent (or empty, hence falsy)
payload. -/
structure AffectedProducts where
  deployment : String
deriving DecidableEq

/-- Row of `threat_analysis`. -/
structure ThreatAnalysis where
  summary : Option String
  business_impact : Option String
  mitigation_advice : Option String
  risk_score : Option ℚ
  analyzed_at : ℚ
deriving DecidableEq

/-- Row of `threat_categories`. -/
structure ThreatCategory where
  category : String
  confidence : ℚ
deriving DecidableEq

/-- Row of `threats`, with its owned analysis and category children. -/
structure Threat where
  cve_id : String
  title : String
  description : Option String
  cvss_score : Option ℚ
  severity : Option String
  published_date : Option ℚ
  modified_date : Option ℚ
  affected_products : Option AffectedProducts
  attack_vector : Option String
  source : Option String
  analysis : Option ThreatAnalysis
  categories : List ThreatCategory
deriving DecidableEq

/-- Row of `dashboard_metrics`: the JSON payload a collection run stores
under the name `"threat_snapshot"`. -/
structure MetricValue where
  total_collected : ℕ
  trending : List String
  categories : List (String × ℕ)
deriving DecidableEq

/-- Row of `dashboard_metrics`. -/
structure DashboardMetric where
  metric_name : String
  metric_value : MetricValue
  updated_at : ℚ
deriving DecidableEq

/-! ## RiskEngine (`risk_engine.py`) -/

/-- Input record of `RiskEngine.compute_risk` (dataclass `RiskFactors`). -/
structure RiskFactors where
  cvss_score : Option ℚ
  is_known_exploited : Bool
  attack_vector : Option String
  affected_products : Option AffectedProducts
deriving DecidableEq

/-- `RiskEngine.vector_weights` looked up with
`self.vector_weights.get((factors.attack_vector or "").upper(), 0.5)`. -/
def vectorWeight (attack_vector : Option String) : ℚ :=
  let key := pyUpper (pyOrStr attack_vector "")
  if key = "NETWORK" then 1.0
  else if key = "ADJACENT_NETWORK" then 0.8
  else if key = "LOCAL" then 0.6
  else if key = "PHYSICAL" then 0.3
  else 0.5

/-- `RiskEngine._product_weight`: keyword match on the lower-cased
deployment string, `0.5` when the payload is absent or empty (falsy). -/
def product_weight (affected_products : Option AffectedProducts) : ℚ :=
  match affected_products with
  | none => 0.5
  | some ap =>
    let deployments := pyLower ap.deployment
    if containsAny deployments ["cloud", "saas"] then 1.0
    else if containsAny deployments ["server", "enterprise"] then 0.8
    else if containsAny deployments ["desktop", "client"] then 0.6
    else 0.5

/-- `RiskEngine.compute_risk`: weighted combination of normalized severity,
vector weight and deployment weight, plus a flat exploit bonus, clamped to
`[0,1]` and scaled by 10. -/
def compute_risk (factors : RiskFactors) : ℚ :=
  let base_score := pyOrQ factors.cvss_score 0 / 10
  let exploit_bonus : ℚ := if factors.is_known_exploited then 0.2 else 0.0
  let vector_weight := vectorWeight factors.attack_vector
  let pw := product_weight factors.affected_products
  let risk := base_score * 0.6 + vector_weight * 0.2 + pw * 0.2
  let risk' := risk + exploit_bonus
  pymax 0.0 (pymin 1.0 risk') * 10

/-- The specification's reference formula for the risk score, stated in the
spec's own order: combine `0.6*severity + 0.2*vectorWeight +
0.2*deploymentWeight`, add `+0.2` when actively exploited, clamp the
bonus-included sum to `[0,1]`, scale by 10. -/
def computeRiskSpec (factors : RiskFactors) : ℚ :=
  let severity := pyOrQ factors.cvss_score 0 / 10
  let vw := vectorWeight factors.attack_vector
  let dw := product_weight factors.affected_products
  let combined := 0.6 * severity + 0.2 * vw + 0.2 * dw
  let withBonus := combined + (if factors.is_known_exploited then 0.2 else 0)
  pymin 1 (pymax 0 withBonus) * 10

/-- The filter condition of `RiskEngine.identify_trending`:
`t.published_date and t.published_date >= cutoff`, with the source's
`cutoff = datetime.now(timezone.utc) - timedelta(days=days)`; `now` is the
current time in seconds. -/
def trendingPred (cutoff : ℚ) (t : Threat) : Bool :=
  match t.published_date with
  | none => false
  | some p => decide (cutoff ≤ p)

/-- `RiskEngine.identify_trending` proper: filter by the recency cutoff and
keep the identifiers, in input order. -/
def identify_trending (now : ℚ) (threats : List Threat) (days : ℚ) : List String :=
  (threats.filter (trendingPred (now - days * 86400))).map (fun t => t.cve_id)

/-- `RiskEngine.categorize`: first-match-wins keyword dispatch over the
lower-cased description, then title. -/
def categorize (t : Threat) : String × ℚ :=
  let description := pyLower (pyOrStr t.description "")
  let title := pyLower t.title
  if containsAny description ["web", "http", "browser"] then ("Web", 0.75)
  else if containsAny description ["cloud", "kubernetes", "aws", "azure"] then ("Cloud", 0.7)
  else if containsAny description ["mobile", "android", "ios", "iphone"] then ("Mobile", 0.7)
  else if containsAny description ["router", "network", "switch"] then ("Network", 0.65)
  else if containsSub "firmware" description || containsSub "iot" description then ("IoT", 0.6)
  else if containsSub "windows" title || containsSub "linux" title then ("Endpoint", 0.55)
  else ("Other", 0.4)

/-- The specification's reading of `categorize`: an explicit ordered list
of (predicate over description and title, label, confidence) rules,
evaluated in sequence, defaulting to `("Other", 0.4)`. -/
def firstMatch (desc title : String) :
    List ((String → String → Bool) × String × ℚ) → String × ℚ
  | [] => ("Other", 0.4)
  | r :: rest => if r.1 desc title then (r.2.1, r.2.2) else firstMatch desc title rest

/-- The spec's ordered rule list for `categorize` (§4.1): Web → Cloud →
Mobile → Network → IoT → Endpoint, with the fixed confidences. -/
def categorizeRules : List ((String → String → Bool) × String × ℚ) :=
  [ (fun d _ => containsAny d ["web", "http", "browser"], "Web", 0.75),
    (fun d _ => containsAny d ["cloud", "kubernetes", "aws", "azure"], "Cloud", 0.7),
    (fun d _ => containsAny d ["mobile", "android", "ios", "iphone"], "Mobile", 0.7),
    (fun d _ => containsAny d ["router", "network", "switch"], "Network", 0.65),
    (fun d _ => containsSub "firmware" d || containsSub "iot" d, "IoT", 0.6),
    (fun _ ti => containsSub "windows" ti || containsSub "linux" ti, "Endpoint", 0.55) ]

/-- `categorize` as the spec words it: the ordered rules applied to the
lower-cased description and title. -/
def categorizeSpec (t : Threat) : String × ℚ :=
  firstMatch (pyLower (pyOrStr t.description "")) (pyLower t.title) categorizeRules

/-- Insert-or-increment for a label count list, preserving first-seen
order (a `collections.Counter` read back with `dict(counter)`). -/
def bump : List (String × ℕ) → String → List (String × ℕ)
  | [], l => [(l, 1)]
  | (k, n) :: rest, l => if k = l then (k, n + 1) :: rest else (k, n) :: bump rest l

/-- `RiskEngine.distribution`: label → count over `categorize` of every
input threat. -/
def distribution (threats : List Threat) : List (String × ℕ) :=
  threats.foldl (fun acc t => bump acc (categorize t).1) []

/-! ## LLMAnalyzer (`llm_analyzer.py`)

Per-process analyzer state.  The external model call and the `json.loads`
of its content are collaborators: one `analyze_threat` call consumes a
`ModelOutcome` describing what they would produce — an exception, or a
response whose decoded payload is `none` on a JSON decode failure — and
`estTokens` standing for `len(prompt) // 4`.  The step reports which
side effects (lock acquisition, rate-limit sleep, model invocation)
happened. -/

/-- Mutable per-process state of `LLMAnalyzer`: whether an OpenAI client is
configured, the configured daily token budget, the start of the current
one-day window (seconds) and the tokens consumed in it. -/
structure AnalyzerState where
  clientConfigured : Bool
  token_budget : ℤ
  window_start : ℚ
  tokens_used : ℕ
deriving DecidableEq

/-- `timedelta(days=1)` in seconds. -/
def oneDay : ℚ := 86400

/-- `LLMAnalyzer._reset_if_needed`: zero the token counter and restart the
window once strictly more than one day has elapsed since its start. -/
def reset_if_needed (st : AnalyzerState) (now : ℚ) : AnalyzerState :=
  if oneDay < now - st.window_start then
    { st with window_start := now, tokens_used := 0 }
  else st

/-- Analysis payload dictionary: the four keys are always present, each
value may be `None` (a model payload may omit any field; the fallback
fills all four). -/
structure AnalysisPayload where
  summary : Option String
  business_impact : Option String
  mitigation_advice : Option String
  risk_score : Option ℚ
deriving DecidableEq

/-- `LLMAnalyzer._fallback_analysis`. -/
def fallback_analysis (t : Threat) : AnalysisPayload :=
  let severity := pyUpper (pyOrStr t.severity "UNKNOWN")
  let mitigation :=
    if severity = "CRITICAL" || severity = "HIGH" then
      "Apply vendor patches and review compensating controls."
    else "Monitor vendor advisories and strengthen monitoring."
  let summary :=
    match t.description with
    | none => t.title
    | some d => if d = "" then t.title else pyTake d 500
  { summary := some summary,
    business_impact := some "Potential impact inferred from severity level.",
    mitigation_advice := some mitigation,
    risk_score :=
      some (pymin 10.0 (pyOrQ t.cvss_score 5 + (if severity = "CRITICAL" then 2 else 1))) }

/-- What the external model client and the JSON decode of its content
produce for one call: an exception, or a response with the decoded payload
(`none` when `json.loads` fails) and the reported `usage.total_tokens`. -/
inductive ModelOutcome where
  | exn : ModelOutcome
  | resp : Option AnalysisPayload → Option ℕ → ModelOutcome
deriving DecidableEq

/-- Everything one `analyze_threat` call did: the state it leaves, the
payload it returns, and which effects ran. -/
structure AnalyzeResult where
  state : AnalyzerState
  result : AnalysisPayload
  invokedModel : Bool
  usedLock : Bool
  rateLimited : Bool
  isFallback : Bool
deriving DecidableEq

/-- `LLMAnalyzer.analyze_threat` as a sequential step: reset the window if
stale, return the fallback when no client is configured; otherwise, under
the lock, reset again, return the fallback when the budget is spent,
rate-limit and invoke the model, fall back on an exception or a decode
failure, and otherwise record the consumed tokens (reported usage when
truthy, else the `len(prompt) // 4` estimate) and return the parsed
payload. -/
def analyze_threat (st : AnalyzerState) (now : ℚ) (outcome : ModelOutcome)
    (estTokens : ℕ) (t : Threat) : AnalyzeResult :=
  let st1 := reset_if_needed st now
  if st1.clientConfigured = false then
    ⟨st1, fallback_analysis t, false, false, false, true⟩
  else
    let st2 := reset_if_needed st1 now
    if st2.token_budget ≤ (st2.tokens_used : ℤ) then
      ⟨st2, fallback_analysis t, false, true, false, true⟩
    else
      match outcome with
      | .exn => ⟨st2, fallback_analysis t, true, true, true, true⟩
      | .resp none _ => ⟨st2, fallback_analysis t, true, true, true, true⟩
      | .resp (some payload) usage =>
        let add := match usage with
          | some n => if n ≠ 0 then n else estTokens
          | none => estTokens
        ⟨{ st2 with tokens_used := st2.tokens_used + add }, payload, true, true, true, false⟩

/-! ## ThreatCollector (`threat_collector.py`)

`store_threats` is embedded over the committed database (a list of
`Threat` rows) with the analyzer abstracted to the payload function it
yields for a threat (`fallback_analysis` when no model client is
configured).  The fetched records carry their dates as already-parsed
time values. -/

/-- One fetched record, as the dictionaries built by `collect_nist_cves`:
every key is present (so each `item.get(key, default)` in
`store_threats` reads the record's own field). -/
structure FetchedRecord where
  cve_id : String
  title : String
  description : Option String
  cvss_score : Option ℚ
  severity : Option String
  published_date : Option ℚ
  modified_date : Option ℚ
  affected_products : Option AffectedProducts
  attack_vector : Option String
  source : Option String
deriving DecidableEq

/-- `ThreatCollector._parse_date` on a value that is already a time value
or `None`: the source returns `None` for `None` and a `datetime`
unchanged (its `isinstance(value, datetime)` branch). -/
def parse_date (v : Option ℚ) : Option ℚ := v

/-- The found-threat branch of `store_threats`: overwrite the mutable
fields with the fetched values (the identifier and source tag are not
touched). -/
def mergeInto (t : Threat) (item : FetchedRecord) : Threat :=
  { t with
    title := item.title,
    description := item.description,
    cvss_score := item.cvss_score,
    severity := item.severity,
    published_date := parse_date item.published_date,
    modified_date := parse_date item.modified_date,
    affected_products := item.affected_products,
    attack_vector := item.attack_vector }

/-- The not-found branch of `store_threats`: a fresh `Threat` row from the
fetched record, with no analysis and no categories yet. -/
def newThreat (item : FetchedRecord) : Threat :=
  { cve_id := item.cve_id,
    title := item.title,
    description := item.description,
    cvss_score := item.cvss_score,
    severity := item.severity,
    published_date := parse_date item.published_date,
    modified_date := parse_date item.modified_date,
    affected_products := item.affected_products,
    attack_vector := item.attack_vector,
    source := item.source,
    analysis := none,
    categories := [] }

/-- The analysis step of `store_threats`: when the threat has no analysis,
obtain a payload from the analyzer and attach it (the payload dictionary
always carries a `risk_score` key, so `analysis_payload.get("risk_score",
risk)` reads the payload's value); when it has one, only
`threat.analysis.risk_score = threat.analysis.risk_score or risk`. -/
def analyzeAttach (analyzerF : Threat → AnalysisPayload) (now : ℚ) (risk : ℚ)
    (t : Threat) : Threat :=
  match t.analysis with
  | none =>
    let p := analyzerF t
    let a : ThreatAnalysis :=
      { summary := p.summary,
        business_impact := p.business_impact,
        mitigation_advice := p.mitigation_advice,
        risk_score := p.risk_score,
        analyzed_at := now }
    { t with analysis := some a }
  | some a =>
    let a' : ThreatAnalysis := { a with risk_score := pyOrOptQ a.risk_score risk }
    { t with analysis := some a' }

/-- The category step of `store_threats`: append a category row only when
no row with that exact label exists yet. -/
def categorizeAttach (t : Threat) : Threat :=
  let lc := categorize t
  if t.categories.any (fun c => c.category == lc.1) then t
  else { t with categories := t.categories ++ [⟨lc.1, lc.2⟩] }

/-- Replace the first row with the given identifier. -/
def replaceById : List Threat → String → Threat → List Threat
  | [], _, _ => []
  | t :: rest, id, t' =>
    if t.cve_id == id then t' :: rest else t :: replaceById rest id t'

/-- The per-record body of `store_threats`: look the identifier up, merge
or insert, compute the risk from the freshly merged attributes and the
exploited set, attach analysis and category.  Returns the updated session
view and the stored threat. -/
def storeOne (analyzerF : Threat → AnalysisPayload) (now : ℚ)
    (exploited : List String) (db : List Threat) (item : FetchedRecord) :
    List Threat × Threat :=
  match db.find? (fun t => t.cve_id == item.cve_id) with
  | some t0 =>
    let t1 := mergeInto t0 item
    let risk := compute_risk
      ⟨t1.cvss_score, exploited.contains t1.cve_id, t1.attack_vector, t1.affected_products⟩
    let t2 := categorizeAttach (analyzeAttach analyzerF now risk t1)
    (replaceById db item.cve_id t2, t2)
  | none =>
    let t1 := newThreat item
    let risk := compute_risk
      ⟨t1.cvss_score, exploited.contains t1.cve_id, t1.attack_vector, t1.affected_products⟩
    let t2 := categorizeAttach (analyzeAttach analyzerF now risk t1)
    (db ++ [t2], t2)

/-- The loop of `store_threats` over the fetched batch, before the single
commit: the pending session view and the `stored` list, in input order. -/
def storePending (analyzerF : Threat → AnalysisPayload) (now : ℚ)
    (exploited : List String) (db : List Threat) :
    List FetchedRecord → List Threat × List Threat
  | [] => (db, [])
  | item :: rest =>
    let r := storeOne analyzerF now exploited db item
    let tail := storePending analyzerF now exploited r.1 rest
    (tail.1, r.2 :: tail.2)

/-- Modelled from the spec: the relational session of §6 is an external
collaborator whose `commit` applies the whole pending transaction, and
whose uniqueness constraint on the threat identifier may make the commit
raise `IntegrityError` instead (e.g. under a concurrent writer), in which
case `rollback` discards every pending change. -/
inductive CommitOutcome where
  | ok : CommitOutcome
  | integrityError : CommitOutcome
deriving DecidableEq

/-- `ThreatCollector.store_threats`: build the whole batch's pending
changes, then one commit; on `IntegrityError`, roll back (the committed
state stays as it was) and log — the `stored` list is still returned. -/
def store_threats (analyzerF : Threat → AnalysisPayload) (now : ℚ)
    (exploited : List String) (db : List Threat)
    (records : List FetchedRecord) (co : CommitOutcome) :
    List Threat × List Threat :=
  let p := storePending analyzerF now exploited db records
  match co with
  | .ok => (p.1, p.2)
  | .integrityError => (db, p.2)

/-- Replace the first metric row with the given name. -/
def replaceMetric : List DashboardMetric → String → MetricValue → ℚ → List DashboardMetric
  | [], _, _, _ => []
  | m :: rest, name, v, now =>
    if m.metric_name == name then
      { m with metric_value := v, updated_at := now } :: rest
    else m :: replaceMetric rest name v now

/-- `ThreatCollector.update_metrics`: recompute the snapshot payload from
the just-stored batch and upsert the single `"threat_snapshot"` row. -/
def update_metrics (now : ℚ) (db : List DashboardMetric) (threats : List Threat) :
    List DashboardMetric :=
  let payload : MetricValue :=
    ⟨threats.length, identify_trending now threats 7, distribution threats⟩
  if db.any (fun m => m.metric_name == "threat_snapshot") then
    replaceMetric db "threat_snapshot" payload now
  else db ++ [⟨"threat_snapshot", payload, now⟩]

/-- `ThreatCollector.collect_github_advisories`: a stub, always empty. -/
def collect_github_advisories : List FetchedRecord := []

/-- `ThreatCollector.run_collection` from the point the feeds have
answered: merge NVD with the (empty) GitHub advisories, store them with
the CISA set as the exploited input, and recompute the metrics when the
returned `stored` list is non-empty.  Returns (threat table, metric
table, stored list). -/
def run_collection (analyzerF : Threat → AnalysisPayload) (now : ℚ)
    (nist : List FetchedRecord) (cisa : List String)
    (db : List Threat) (metricsDb : List DashboardMetric) (co : CommitOutcome) :
    List Threat × List DashboardMetric × List Threat :=
  let merged := nist ++ collect_github_advisories
  let r := store_threats analyzerF now cisa db merged co
  if r.2.isEmpty then (r.1, metricsDb, r.2)
  else (r.1, update_metrics now metricsDb r.2, r.2)

/-! ## Helper lemmas -/

/-- Clamping to `[0,1]` commutes: `max 0 (min 1 x) = min 1 (max 0 x)`. -/
theorem pyclamp_comm (x : ℚ) : pymax 0.0 (pymin 1.0 x) = pymin 1 (pymax 0 x) := by
  unfold pymax pymin
  split_ifs <;> norm_num at * <;> linarith

/-- The clamp of `compute_risk` lands in `[0,1]`. -/
theorem pyclamp_mem (x : ℚ) :
    0 ≤ pymax 0.0 (pymin 1.0 x) ∧ pymax 0.0 (pymin 1.0 x) ≤ 1 := by
  unfold pymax pymin
  split_ifs <;> constructor <;> norm_num at * <;> linarith

/-! ## C2 -/

/-- C2 counterexample: for the NETWORK vector with severity 0 (absent), not
exploited and no affected-products payload, `compute_risk` returns 3, while
the claim's formula `vectorWeight*0.2*10` gives `1.0*0.2*10 = 2`: the claim
omits the default deployment weight's `0.5*0.2*10 = 1` contribution. -/
theorem C2_counterexample :
    compute_risk ⟨none, false, some "NETWORK", none⟩ = 3 ∧
    vectorWeight (some "NETWORK") * 0.2 * 10 = 2 ∧ (3 : ℚ) ≠ 2 := by
  refine ⟨?_, ?_, by norm_num⟩ <;>
    norm_num +decide [compute_risk, vectorWeight, product_weight, pyOrQ, pyOrStr,
      pyUpper, pymax, pymin]

/-- C2 (amended): for every attack-vector label in the fixed set,
`compute_risk` with severity 0 (or absent), not exploited and the default
deployment weight returns exactly `(vectorWeight*0.2 + 0.5*0.2)*10`, i.e.
`vectorWeight*0.2*10` plus 1 for the default deployment weight. -/
theorem C2_amended_default_weights :
    compute_risk ⟨none, false, some "NETWORK", none⟩ = (1.0 * 0.2 + 0.5 * 0.2) * 10 ∧
    compute_risk ⟨some 0, false, some "NETWORK", none⟩ = (1.0 * 0.2 + 0.5 * 0.2) * 10 ∧
    compute_risk ⟨none, false, some "ADJACENT_NETWORK", none⟩ = (0.8 * 0.2 + 0.5 * 0.2) * 10 ∧
    compute_risk ⟨some 0, false, some "ADJACENT_NETWORK", none⟩ = (0.8 * 0.2 + 0.5 * 0.2) * 10 ∧
    compute_risk ⟨none, false, some "LOCAL", none⟩ = (0.6 * 0.2 + 0.5 * 0.2) * 10 ∧
    compute_risk ⟨some 0, false, some "LOCAL", none⟩ = (0.6 * 0.2 + 0.5 * 0.2) * 10 ∧
    compute_risk ⟨none, false, some "PHYSICAL", none⟩ = (0.3 * 0.2 + 0.5 * 0.2) * 10 ∧
    compute_risk ⟨some 0, false, some "PHYSICAL", none⟩ = (0.3 * 0.2 + 0.5 * 0.2) * 10 := by
  refine ⟨?_, ?_, ?_, ?_, ?_, ?_, ?_, ?_⟩ <;>
    norm_num +decide [compute_risk, vectorWeight, product_weight, pyOrQ, pyOrStr,
      pyUpper, pymax, pymin]

/-! ## C3 -/

/-- C3: `compute_risk` equals the spec's reference formula for every input;
the output always lies in `[0,10]`; and the concrete input severity 9.8,
exploited, NETWORK vector, cloud deployment scores within `[8,10]` (it is
exactly 10). -/
theorem C3_reference_formula_and_range :
    (∀ f : RiskFactors, compute_risk f = computeRiskSpec f) ∧
    (∀ f : RiskFactors, 0 ≤ compute_risk f ∧ compute_risk f ≤ 10) ∧
    compute_risk ⟨some 9.8, true, some "NETWORK", some ⟨"cloud"⟩⟩ = 10 ∧
    8 ≤ compute_risk ⟨some 9.8, true, some "NETWORK", some ⟨"cloud"⟩⟩ ∧
    compute_risk ⟨some 9.8, true, some "NETWORK", some ⟨"cloud"⟩⟩ ≤ 10 := by
  have hform : ∀ f : RiskFactors, compute_risk f = computeRiskSpec f := by
    rintro ⟨c, e, av, ap⟩
    simp only [compute_risk, computeRiskSpec]
    rw [pyclamp_comm]
    cases e <;> simp <;> ring_nf
  have hrange : ∀ f : RiskFactors, 0 ≤ compute_risk f ∧ compute_risk f ≤ 10 := by
    intro f
    simp only [compute_risk]
    obtain ⟨h1, h2⟩ := pyclamp_mem
      (pyOrQ f.cvss_score 0 / 10 * 0.6 + vectorWeight f.attack_vector * 0.2 +
        product_weight f.affected_products * 0.2 +
        (if f.is_known_exploited = true then 0.2 else 0.0))
    constructor <;> nlinarith
  have hconc : compute_risk ⟨some 9.8, true, some "NETWORK", some ⟨"cloud"⟩⟩ = 10 := by
    norm_num +decide [compute_risk, vectorWeight, product_weight, pyOrQ, pyOrStr,
      pyUpper, pyLower, pymax, pymin, containsAny, containsSub, containsSubList,
      startsWithL]
  refine ⟨hform, hrange, hconc, by rw [hconc]; norm_num, by rw [hconc]⟩

/-! ## C7 -/

/-- The threat of the categorization unit test: a description containing
"web servers and HTTP interfaces". -/
def webThreat : Threat :=
  { cve_id := "CVE-2024-0001",
    title := "Sample",
    description := some "This vulnerability affects web servers and HTTP interfaces",
    cvss_score := none, severity := none, published_date := none,
    modified_date := none, affected_products := none, attack_vector := none,
    source := none, analysis := none, categories := [] }

/-- C7: `categorize` agrees with the spec's ordered first-match-wins rule
list everywhere, always returns one of the seven (label, confidence)
pairs, and maps the "web servers and HTTP interfaces" description to
`("Web", 0.75)`. -/
theorem C7_categorize_total_and_ordered :
    (∀ t : Threat, categorize t = categorizeSpec t) ∧
    (∀ t : Threat, categorize t ∈
      [("Web", (0.75 : ℚ)), ("Cloud", 0.7), ("Mobile", 0.7), ("Network", 0.65),
       ("IoT", 0.6), ("Endpoint", 0.55), ("Other", 0.4)]) ∧
    categorize webThreat = ("Web", 0.75) := by
  refine ⟨?_, ?_, by rfl⟩
  · intro t
    simp only [categorize, categorizeSpec, categorizeRules, firstMatch]
  · intro t
    simp only [categorize]
    split_ifs <;> simp

/-! ## C9 -/

/-- The filter condition of `identify_trending` holds exactly when a
publish timestamp exists that is at most `days` days before `now`. -/
theorem trendingPred_iff (cutoff : ℚ) (t : Threat) :
    trendingPred cutoff t = true ↔
      ∃ p, t.published_date = some p ∧ cutoff ≤ p := by
  unfold trendingPred
  cases h : t.published_date <;> simp [h]

/-- A reference time for the concrete trending scenario. -/
def trendNow : ℚ := 1000000000

/-- A threat published 8 days before `trendNow`. -/
def threat8d : Threat :=
  { cve_id := "CVE-8-DAYS-OLD", title := "old", description := none,
    cvss_score := none, severity := none,
    published_date := some (trendNow - 8 * 86400), modified_date := none,
    affected_products := none, attack_vector := none, source := none,
    analysis := none, categories := [] }

/-- A threat published 1 day before `trendNow`. -/
def threat1d : Threat :=
  { cve_id := "CVE-1-DAY-OLD", title := "new", description := none,
    cvss_score := none, severity := none,
    published_date := some (trendNow - 1 * 86400), modified_date := none,
    affected_products := none, attack_vector := none, source := none,
    analysis := none, categories := [] }

/-- C9: an identifier is returned by `identify_trending` exactly when it
belongs to an input threat whose publish timestamp exists and is at most
`days` days before the current time; with `days = 7` the threat published
8 days in the past is excluded and the one published 1 day in the past is
included. -/
theorem C9_identify_trending :
    (∀ (now days : ℚ) (threats : List Threat) (id : String),
      id ∈ identify_trending now threats days ↔
        ∃ t ∈ threats,
          (∃ p, t.published_date = some p ∧ now - p ≤ days * 86400) ∧
          t.cve_id = id) ∧
    identify_trending trendNow [threat8d, threat1d] 7 = ["CVE-1-DAY-OLD"] := by
  constructor
  · intro now days threats id
    simp only [identify_trending, List.mem_map, List.mem_filter]
    constructor
    · rintro ⟨t, ⟨ht, hp⟩, hid⟩
      obtain ⟨p, hsome, hcut⟩ := (trendingPred_iff _ t).mp hp
      exact ⟨t, ht, ⟨p, hsome, by linarith⟩, hid⟩
    · rintro ⟨t, ht, ⟨p, hsome, hcut⟩, hid⟩
      exact ⟨t, ⟨ht, (trendingPred_iff _ t).mpr ⟨p, hsome, by linarith⟩⟩, hid⟩
  · norm_num [identify_trending, trendingPred, threat8d, threat1d, trendNow,
      List.filter]

/-! ## C8 -/

/-- A threat whose description is present but empty: `""` is falsy in
Python, so the fallback summary falls through to the title. -/
def emptyDescThreat : Threat :=
  { cve_id := "CVE-EMPTY-DESC", title := "T", description := some "",
    cvss_score := none, severity := none, published_date := none,
    modified_date := none, affected_products := none, attack_vector := none,
    source := none, analysis := none, categories := [] }

/-- C8 counterexample: for a threat with a present but empty description
and title `"T"`, the fallback summary is the title `"T"`, not the first
500 characters of the description (which are `""`): the claim's "the
title when the description is absent" misses the empty-description case. -/
theorem C8_counterexample :
    (fallback_analysis emptyDescThreat).summary = some "T" ∧
    pyTake "" 500 = "" ∧ ("T" : String) ≠ "" := by
  refine ⟨rfl, rfl, by decide⟩

/-- The claim's fallback payload, amended only where the counterexample
forces it: summary is the first 500 characters of the description, or the
title when the description is absent **or empty**; the fixed
business-impact sentence; one of exactly two mitigation sentences chosen
by whether the (upper-cased) severity is CRITICAL or HIGH; and
`risk_score = min(10, (cvss_score or 5) + (2 if CRITICAL else 1))`. -/
def fallbackSpec (t : Threat) : AnalysisPayload :=
  let sev := pyUpper (pyOrStr t.severity "UNKNOWN")
  let bonus : ℚ := if sev = "CRITICAL" then 2 else 1
  { summary := some (match t.description with
      | some d => if d ≠ "" then pyTake d 500 else t.title
      | none => t.title),
    business_impact := some "Potential impact inferred from severity level.",
    mitigation_advice := some (if sev ∈ (["CRITICAL", "HIGH"] : List String) then
        "Apply vendor patches and review compensating controls."
      else "Monitor vendor advisories and strengthen monitoring."),
    risk_score := some (pymin 10 (pyOrQ t.cvss_score 5 + bonus)) }

/-- C8 (amended): `_fallback_analysis` returns exactly the claim's payload
with the empty-description case reading the title, for every threat. -/
theorem C8_fallback_payload : ∀ t : Threat, fallback_analysis t = fallbackSpec t := by
  intro t
  unfold fallback_analysis fallbackSpec
  cases hd : t.description <;>
    simp [hd, List.mem_cons, Bool.or_eq_true, ite_not] <;>
    norm_num

/-! ## C4 -/

/-- C4: with a client configured, once the accumulated tokens reach the
budget, any call within the one-day window returns the fallback without
invoking the model and leaves the state unchanged (so the property
persists for every subsequent call of the window); and once strictly more
than one day has elapsed, the window restarts — the counter is zeroed (a
successful model call afterwards holds only its own tokens) and model
calls resume. -/
theorem C4_token_budget_window :
    ∀ (st : AnalyzerState) (now : ℚ) (outcome : ModelOutcome) (est : ℕ)
      (t : Threat) (payload : AnalysisPayload) (usage : Option ℕ),
      (st.clientConfigured = true → st.token_budget ≤ (st.tokens_used : ℤ) →
        now - st.window_start ≤ oneDay →
        (analyze_threat st now outcome est t).isFallback = true ∧
        (analyze_threat st now outcome est t).result = fallback_analysis t ∧
        (analyze_threat st now outcome est t).invokedModel = false ∧
        (analyze_threat st now outcome est t).state = st) ∧
      (st.clientConfigured = true → oneDay < now - st.window_start →
        0 < st.token_budget →
        (analyze_threat st now (.resp (some payload) usage) est t).invokedModel = true ∧
        (analyze_threat st now (.resp (some payload) usage) est t).isFallback = false ∧
        (analyze_threat st now (.resp (some payload) usage) est t).result = payload ∧
        (analyze_threat st now (.resp (some payload) usage) est t).state.window_start = now ∧
        (analyze_threat st now (.resp (some payload) usage) est t).state.tokens_used =
          (match usage with | some n => if n ≠ 0 then n else est | none => est)) := by
  intro st now outcome est t payload usage
  constructor
  · intro h1 h2 h3
    have hr : reset_if_needed st now = st := by
      unfold reset_if_needed
      rw [if_neg (not_lt.mpr h3)]
    simp [analyze_threat, hr, h1, h2]
  · intro h1 h2 h3
    have hr : reset_if_needed st now = ⟨true, st.token_budget, now, 0⟩ := by
      unfold reset_if_needed
      rw [if_pos h2, h1]
    have hr2 : reset_if_needed ⟨true, st.token_budget, now, 0⟩ now =
        ⟨true, st.token_budget, now, 0⟩ := by
      unfold reset_if_needed
      rw [if_neg]
      simp only [oneDay]
      norm_num
    have hb : ¬ st.token_budget ≤ (0 : ℤ) := not_le.mpr h3
    simp only [analyze_threat, hr, hr2]
    simp [hb]

/-! ## C10 -/

/-- C10 counterexample: with a client configured, 500 tokens consumed and
the window started two days ago, an `analyze_threat` call whose model call
raises returns the fallback analysis, yet the token counter is *not* left
unchanged — `_reset_if_needed` zeroes it (500 becomes 0) before the failed
call. -/
theorem C10_counterexample :
    (analyze_threat ⟨true, 1000, 0, 500⟩ (2 * 86400) .exn 0 webThreat).isFallback = true ∧
    (analyze_threat ⟨true, 1000, 0, 500⟩ (2 * 86400) .exn 0 webThreat).state.tokens_used = 0 ∧
    (⟨true, 1000, 0, 500⟩ : AnalyzerState).tokens_used = 500 ∧ (0 : ℕ) ≠ 500 := by
  norm_num [analyze_threat, reset_if_needed, oneDay]

/-- C10 (amended): on every fallback return the token counter is never
increased — it is either left unchanged or zeroed by the one-day window
reset; the counter grows only on calls where a model response was
obtained (invoked and not fallback); and with no client configured the
lock, the rate limiter and the model are never used, the fallback is
returned, and the counter does not grow. -/
theorem C10_fallback_frame :
    ∀ (st : AnalyzerState) (now : ℚ) (outcome : ModelOutcome) (est : ℕ) (t : Threat),
      ((analyze_threat st now outcome est t).isFallback = true →
        (analyze_threat st now outcome est t).state.tokens_used = st.tokens_used ∨
        ((analyze_threat st now outcome est t).state.tokens_used = 0 ∧
          oneDay < now - st.window_start)) ∧
      (st.tokens_used < (analyze_threat st now outcome est t).state.tokens_used →
        (analyze_threat st now outcome est t).invokedModel = true ∧
        (analyze_threat st now outcome est t).isFallback = false) ∧
      (st.clientConfigured = false →
        (analyze_threat st now outcome est t).usedLock = false ∧
        (analyze_threat st now outcome est t).rateLimited = false ∧
        (analyze_threat st now outcome est t).invokedModel = false ∧
        (analyze_threat st now outcome est t).result = fallback_analysis t ∧
        (analyze_threat st now outcome est t).state.tokens_used ≤ st.tokens_used) := by
  intro st now outcome est t
  have hkey : (reset_if_needed st now).tokens_used = st.tokens_used ∨
      ((reset_if_needed st now).tokens_used = 0 ∧ oneDay < now - st.window_start) := by
    unfold reset_if_needed
    split_ifs with h
    · exact Or.inr ⟨rfl, h⟩
    · exact Or.inl rfl
  have hcl : (reset_if_needed st now).clientConfigured = st.clientConfigured := by
    unfold reset_if_needed
    split_ifs <;> rfl
  have hrr : reset_if_needed (reset_if_needed st now) now = reset_if_needed st now := by
    unfold reset_if_needed
    split_ifs <;> rfl
  rcases outcome with _ | ⟨p, u⟩
  · simp only [analyze_threat]
    rw [hrr]
    split_ifs with h1 h2
    · refine ⟨fun _ => hkey, fun hlt => ?_, fun _ => ⟨rfl, rfl, rfl, rfl, ?_⟩⟩
      · dsimp only at hlt
        rcases hkey with h | ⟨h, _⟩ <;> omega
      · dsimp only
        rcases hkey with h | ⟨h, _⟩ <;> omega
    · refine ⟨fun _ => hkey, fun hlt => ?_, fun hc => absurd (hcl.trans hc) h1⟩
      dsimp only at hlt
      rcases hkey with h | ⟨h, _⟩ <;> omega
    · refine ⟨fun _ => hkey, fun hlt => ?_, fun hc => absurd (hcl.trans hc) h1⟩
      dsimp only at hlt
      rcases hkey with h | ⟨h, _⟩ <;> omega
  · rcases p with _ | pl
    · simp only [analyze_threat]
      rw [hrr]
      split_ifs with h1 h2
      · refine ⟨fun _ => hkey, fun hlt => ?_, fun _ => ⟨rfl, rfl, rfl, rfl, ?_⟩⟩
        · dsimp only at hlt
          rcases hkey with h | ⟨h, _⟩ <;> omega
        · dsimp only
          rcases hkey with h | ⟨h, _⟩ <;> omega
      · refine ⟨fun _ => hkey, fun hlt => ?_, fun hc => absurd (hcl.trans hc) h1⟩
        dsimp only at hlt
        rcases hkey with h | ⟨h, _⟩ <;> omega
      · refine ⟨fun _ => hkey, fun hlt => ?_, fun hc => absurd (hcl.trans hc) h1⟩
        dsimp only at hlt
        rcases hkey with h | ⟨h, _⟩ <;> omega
    · simp only [analyze_threat]
      rw [hrr]
      split_ifs with h1 h2
      · refine ⟨fun _ => hkey, fun hlt => ?_, fun _ => ⟨rfl, rfl, rfl, rfl, ?_⟩⟩
        · dsimp only at hlt
          rcases hkey with h | ⟨h, _⟩ <;> omega
        · dsimp only
          rcases hkey with h | ⟨h, _⟩ <;> omega
      · refine ⟨fun _ => hkey, fun hlt => ?_, fun hc => absurd (hcl.trans hc) h1⟩
        dsimp only at hlt
        rcases hkey with h | ⟨h, _⟩ <;> omega
      · exact ⟨fun h => absurd h (by simp), fun _ => ⟨rfl, rfl⟩,
          fun hc => absurd (hcl.trans hc) h1⟩

/-! ## C5 -/

/-- C5: `store_threats` is one transaction: the committed table after the
call is either the whole batch applied (commit succeeded) or exactly the
original table (the uniqueness violation rolled every pending change
back); there is no partial write and no retry, and on either outcome the
call still returns its `stored` list instead of raising. -/
theorem C5_batch_commit_atomic :
    ∀ (analyzerF : Threat → AnalysisPayload) (now : ℚ) (exploited : List String)
      (db : List Threat) (records : List FetchedRecord) (co : CommitOutcome),
      (((store_threats analyzerF now exploited db records co).1 =
          (storePending analyzerF now exploited db records).1 ∧ co = CommitOutcome.ok) ∨
        ((store_threats analyzerF now exploited db records co).1 = db ∧
          co = CommitOutcome.integrityError)) ∧
      (store_threats analyzerF now exploited db records co).2 =
        (storePending analyzerF now exploited db records).2 := by
  intro analyzerF now exploited db records co
  cases co
  · exact ⟨Or.inl ⟨rfl, rfl⟩, rfl⟩
  · exact ⟨Or.inr ⟨rfl, rfl⟩, rfl⟩

/-! ## C6 -/

/-- A well-formed fetched NVD record used by the concrete scenarios. -/
def sampleRecord : FetchedRecord :=
  { cve_id := "CVE-2024-9999", title := "Sample web flaw",
    description := some "A web server flaw", cvss_score := some 5,
    severity := some "HIGH", published_date := some trendNow,
    modified_date := none, affected_products := none,
    attack_vector := some "NETWORK", source := some "NVD" }

/-- C6 counterexample: when the batch commit hits a uniqueness violation,
the threat table keeps zero stored rows (rollback), yet `run_collection`
still sees a non-empty `stored` list and recomputes and writes the
`"threat_snapshot"` metric row — so the snapshot is not replaced "only
after a successful collection run that stored at least one Threat". -/
theorem C6_counterexample :
    (run_collection fallback_analysis trendNow [sampleRecord] [] [] []
        CommitOutcome.integrityError).1 = [] ∧
    (run_collection fallback_analysis trendNow [sampleRecord] [] [] []
        CommitOutcome.integrityError).2.1.length = 1 := by
  exact ⟨rfl, rfl⟩

/-- Replacing a metric row in place preserves, per name, the number of
rows carrying that name. -/
theorem replaceMetric_filter_length (mdb : List DashboardMetric) (name : String)
    (v : MetricValue) (now : ℚ) :
    ((replaceMetric mdb name v now).filter (fun m => m.metric_name == name)).length =
      (mdb.filter (fun m => m.metric_name == name)).length := by
  induction mdb with
  | nil => rfl
  | cons m rest ih =>
    unfold replaceMetric
    by_cases hm : (m.metric_name == name) = true
    · rw [if_pos hm]
      simp [List.filter, hm]
    · rw [if_neg hm]
      simp [List.filter, hm, ih]

/-- After an in-place replacement the first row of the given name holds
exactly the new payload and timestamp. -/
theorem replaceMetric_find (mdb : List DashboardMetric) (name : String)
    (v : MetricValue) (now : ℚ)
    (h : mdb.any (fun m => m.metric_name == name) = true) :
    (replaceMetric mdb name v now).find? (fun m => m.metric_name == name) =
      some ⟨name, v, now⟩ := by
  induction mdb with
  | nil => simp at h
  | cons m rest ih =>
    unfold replaceMetric
    by_cases hm : (m.metric_name == name) = true
    · rw [if_pos hm]
      have hname : m.metric_name = name := by simpa using hm
      simp [List.find?, hm, hname]
    · rw [if_neg hm]
      have h' : rest.any (fun m => m.metric_name == name) = true := by
        simp only [List.any_cons, hm, Bool.false_or] at h
        exact h
      simp [List.find?, hm, ih h']

/-- C6 (amended): the metric table is updated exactly when `store_threats`
returned a non-empty `stored` list — i.e. when the fetched batch was
non-empty, even if the commit rolled back; and `update_metrics` keeps a
single `"threat_snapshot"` row: it creates the row when none exists,
otherwise it replaces the existing row's payload in place (the count of
rows of that name never grows past one), and the row it leaves holds
exactly the freshly recomputed snapshot payload. -/
theorem C6_metrics_gate_and_single_row :
    (∀ (analyzerF : Threat → AnalysisPayload) (now : ℚ) (nist : List FetchedRecord)
        (cisa : List String) (db : List Threat) (metricsDb : List DashboardMetric)
        (co : CommitOutcome),
      (run_collection analyzerF now nist cisa db metricsDb co).2.1 =
        if (store_threats analyzerF now cisa db (nist ++ collect_github_advisories) co).2.isEmpty
        then metricsDb
        else update_metrics now metricsDb
          (store_threats analyzerF now cisa db (nist ++ collect_github_advisories) co).2) ∧
    (∀ (now : ℚ) (mdb : List DashboardMetric) (ts : List Threat),
      ((update_metrics now mdb ts).filter
          (fun m => m.metric_name == "threat_snapshot")).length =
        (if (mdb.filter (fun m => m.metric_name == "threat_snapshot")).length = 0 then 1
         else (mdb.filter (fun m => m.metric_name == "threat_snapshot")).length)) ∧
    (∀ (now : ℚ) (mdb : List DashboardMetric) (ts : List Threat),
      (update_metrics now mdb ts).find? (fun m => m.metric_name == "threat_snapshot") =
        some ⟨"threat_snapshot",
          ⟨ts.length, identify_trending now ts 7, distribution ts⟩, now⟩) := by
  refine ⟨?_, ?_, ?_⟩
  · intro analyzerF now nist cisa db metricsDb co
    simp only [run_collection]
    split <;> rfl
  · intro now mdb ts
    unfold update_metrics
    by_cases h : mdb.any (fun m => m.metric_name == "threat_snapshot") = true
    · rw [if_pos h, replaceMetric_filter_length]
      have hne : (mdb.filter (fun m => m.metric_name == "threat_snapshot")).length ≠ 0 := by
        obtain ⟨x, hx, hpx⟩ := List.any_eq_true.mp h
        have : x ∈ mdb.filter (fun m => m.metric_name == "threat_snapshot") :=
          List.mem_filter.mpr ⟨hx, hpx⟩
        intro hlen
        rw [List.length_eq_zero] at hlen
        simp [hlen] at this
      rw [if_neg hne]
    · rw [if_neg h]
      have hnil : mdb.filter (fun m => m.metric_name == "threat_snapshot") = [] := by
        rw [List.filter_eq_nil_iff]
        intro x hx
        have := List.any_eq_true.not.mp h
        push_neg at this
        exact fun hpx => this x hx hpx
      simp [List.filter_append, hnil, List.filter]
  · intro now mdb ts
    unfold update_metrics
    by_cases h : mdb.any (fun m => m.metric_name == "threat_snapshot") = true
    · rw [if_pos h]
      exact replaceMetric_find mdb _ _ now h
    · rw [if_neg h]
      have hnone : mdb.find? (fun m => m.metric_name == "threat_snapshot") = none := by
        rw [List.find?_eq_none]
        intro x hx
        have := List.any_eq_true.not.mp h
        push_neg at this
        exact fun hpx => this x hx hpx
      rw [List.find?_append, hnone]
      simp [List.find?]

/-! ## C1 -/

/-- `pyOrQ` stays nonnegative for nonnegative inputs and default. -/
theorem pyOrQ_nonneg (x : Option ℚ) (d : ℚ) (hd : 0 ≤ d)
    (h : ∀ c, x = some c → 0 ≤ c) : 0 ≤ pyOrQ x d := by
  unfold pyOrQ
  cases x with
  | none => exact hd
  | some c =>
    dsimp only
    split_ifs
    · exact hd
    · exact h c rfl

/-- For a threat with a nonnegative (or absent) CVSS score, the fallback
analysis carries a strictly positive risk score. -/
theorem fallback_risk_pos (t : Threat) (h : ∀ c, t.cvss_score = some c → 0 ≤ c) :
    ∃ v, (fallback_analysis t).risk_score = some v ∧ 0 < v := by
  refine ⟨_, rfl, ?_⟩
  have h5 : (0 : ℚ) ≤ pyOrQ t.cvss_score 5 := pyOrQ_nonneg _ _ (by norm_num) h
  unfold pymin
  split_ifs <;> linarith

/-- The found-analysis branch of `store_threats` leaves the threat intact
when the risk-score backfill is the identity. -/
theorem analyzeAttach_already (f : Threat → AnalysisPayload) (now risk : ℚ)
    (a : ThreatAnalysis) (t : Threat) (ht : t.analysis = some a)
    (ha : pyOrOptQ a.risk_score risk = a.risk_score) :
    analyzeAttach f now risk t = t := by
  obtain ⟨cid, ti, d, cv, sev, pd, md, ap, av, src, an, cats⟩ := t
  obtain rfl : an = some a := ht
  obtain ⟨s, bi, mi, rs, ts'⟩ := a
  simp only [analyzeAttach]
  dsimp only at ha ⊢
  rw [ha]

/-- The category step is the identity when a row with the computed label
is already present. -/
theorem categorizeAttach_already (t : Threat)
    (h : t.categories.any (fun c => c.category == (categorize t).1) = true) :
    categorizeAttach t = t := by
  simp only [categorizeAttach]
  rw [if_pos h]

/-- `categorize` reads only the description and the title. -/
theorem categorize_eq_of_fields (t s : Threat) (hd : t.description = s.description)
    (ht : t.title = s.title) : categorize t = categorize s := by
  unfold categorize
  rw [hd, ht]

/-- Replacing the unique matching row by itself is the identity. -/
theorem replaceById_self (db : List Threat) (t2 : Threat) (id : String)
    (h : ∀ t ∈ db, t.cve_id ≠ id) (ht : t2.cve_id = id) :
    replaceById (db ++ [t2]) id t2 = db ++ [t2] := by
  induction db with
  | nil =>
    simp only [List.nil_append, replaceById]
    rw [if_pos (beq_iff_eq.mpr ht)]
  | cons x rest ih =>
    have hx : (x.cve_id == id) = false := by
      simpa [beq_iff_eq] using h x (List.mem_cons_self x rest)
    simp only [List.cons_append, replaceById, hx, Bool.false_eq_true, if_false,
      List.append_eq]
    rw [ih (fun t htm => h t (List.mem_cons_of_mem _ htm))]

/-- The fresh row after `store_threats`'s analysis step, before the
category step. -/
def analyzedThreat (f : Threat → AnalysisPayload) (now : ℚ) (expl : List String)
    (r : FetchedRecord) : Threat :=
  analyzeAttach f now
    (compute_risk ⟨r.cvss_score, expl.contains r.cve_id, r.attack_vector,
      r.affected_products⟩)
    (newThreat r)

/-- The row `store_threats` inserts for a record whose identifier is not
in the table yet. -/
def storedThreat (f : Threat → AnalysisPayload) (now : ℚ) (expl : List String)
    (r : FetchedRecord) : Threat :=
  categorizeAttach (analyzedThreat f now expl r)

/-- `storeOne` on a fresh identifier appends exactly `storedThreat`. -/
theorem storeOne_insert_eq (f : Threat → AnalysisPayload) (now : ℚ)
    (expl : List String) (db : List Threat) (r : FetchedRecord)
    (hfind : db.find? (fun t => t.cve_id == r.cve_id) = none) :
    storeOne f now expl db r =
      (db ++ [storedThreat f now expl r], storedThreat f now expl r) := by
  unfold storeOne
  rw [hfind]
  rfl

/-- A second `storeOne` over a row that merging, analysis backfill and
categorization all leave intact is the identity on the table. -/
theorem storeOne_second_run (f : Threat → AnalysisPayload) (now2 : ℚ)
    (expl : List String) (db : List Threat) (r : FetchedRecord) (t2 : Threat)
    (hfront : ∀ t ∈ db, t.cve_id ≠ r.cve_id)
    (hid : t2.cve_id = r.cve_id)
    (hmerge : mergeInto t2 r = t2)
    (hana2 : ∀ risk, analyzeAttach f now2 risk t2 = t2)
    (hcat : categorizeAttach t2 = t2) :
    storeOne f now2 expl (db ++ [t2]) r = (db ++ [t2], t2) := by
  have hfind : db.find? (fun t => t.cve_id == r.cve_id) = none := by
    rw [List.find?_eq_none]
    intro x hx
    simpa [beq_iff_eq] using hfront x hx
  have hbeq : (t2.cve_id == r.cve_id) = true := beq_iff_eq.mpr hid
  have hfind2 : (db ++ [t2]).find? (fun t => t.cve_id == r.cve_id) = some t2 := by
    rw [List.find?_append, hfind]
    simp [List.find?, hbeq]
  unfold storeOne
  rw [hfind2]
  dsimp only
  rw [hmerge, hana2 _, hcat, replaceById_self db t2 r.cve_id hfront hid]

/-- C1: starting from a table without the record's identifier and a
fetched CVSS score that is absent or nonnegative, a second
`store_threats` of the identical record is the identity on the table — in
particular it creates no second Analysis, overwrites no narrative field,
and appends no duplicate Category; after the first run exactly one row
carries the identifier, its mutable fields equal the fetched values, it
owns an Analysis and exactly one Category. -/
theorem C1_upsert_idempotent :
    ∀ (now now2 : ℚ) (expl : List String) (db : List Threat) (r : FetchedRecord),
      (∀ t ∈ db, t.cve_id ≠ r.cve_id) →
      (∀ c, r.cvss_score = some c → 0 ≤ c) →
      (store_threats fallback_analysis now2 expl
          (store_threats fallback_analysis now expl db [r] CommitOutcome.ok).1
          [r] CommitOutcome.ok).1 =
        (store_threats fallback_analysis now expl db [r] CommitOutcome.ok).1 ∧
      (((store_threats fallback_analysis now expl db [r] CommitOutcome.ok).1).filter
          (fun t => t.cve_id == r.cve_id)).length = 1 ∧
      (∀ t ∈ (store_threats fallback_analysis now expl db [r] CommitOutcome.ok).1,
        t.cve_id = r.cve_id →
          t.title = r.title ∧ t.description = r.description ∧
          t.cvss_score = r.cvss_score ∧ t.severity = r.severity ∧
          t.published_date = r.published_date ∧ t.modified_date = r.modified_date ∧
          t.affected_products = r.affected_products ∧
          t.attack_vector = r.attack_vector ∧
          t.analysis.isSome = true ∧ t.categories.length = 1) := by
  intro now now2 expl db r h1 h2
  have hfind : db.find? (fun t => t.cve_id == r.cve_id) = none := by
    rw [List.find?_eq_none]
    intro x hx
    simpa [beq_iff_eq] using h1 x hx
  have hrun1 : (store_threats fallback_analysis now expl db [r] CommitOutcome.ok).1 =
      db ++ [storedThreat fallback_analysis now expl r] := by
    simp only [store_threats, storePending]
    rw [storeOne_insert_eq fallback_analysis now expl db r hfind]
  have hrs : ∀ risk, pyOrOptQ (fallback_analysis (newThreat r)).risk_score risk =
      (fallback_analysis (newThreat r)).risk_score := by
    intro risk
    obtain ⟨v, hv, hvpos⟩ := fallback_risk_pos (newThreat r) h2
    rw [hv]
    unfold pyOrOptQ
    dsimp only
    rw [if_neg (ne_of_gt hvpos)]
  have hana2 : ∀ risk,
      analyzeAttach fallback_analysis now2 risk
        (storedThreat fallback_analysis now expl r) =
      storedThreat fallback_analysis now expl r := by
    intro risk
    exact analyzeAttach_already fallback_analysis now2 risk
      ⟨(fallback_analysis (newThreat r)).summary,
        (fallback_analysis (newThreat r)).business_impact,
        (fallback_analysis (newThreat r)).mitigation_advice,
        (fallback_analysis (newThreat r)).risk_score, now⟩
      (storedThreat fallback_analysis now expl r) rfl (hrs risk)
  have hcc : categorize (storedThreat fallback_analysis now expl r) =
      categorize (analyzedThreat fallback_analysis now expl r) :=
    categorize_eq_of_fields _ _ rfl rfl
  have hcatT : categorizeAttach (storedThreat fallback_analysis now expl r) =
      storedThreat fallback_analysis now expl r := by
    apply categorizeAttach_already
    rw [show (storedThreat fallback_analysis now expl r).categories =
        [⟨(categorize (analyzedThreat fallback_analysis now expl r)).1,
          (categorize (analyzedThreat fallback_analysis now expl r)).2⟩] from rfl,
      hcc]
    simp
  have hrun2 : storeOne fallback_analysis now2 expl
      (db ++ [storedThreat fallback_analysis now expl r]) r =
      (db ++ [storedThreat fallback_analysis now expl r],
        storedThreat fallback_analysis now expl r) :=
    storeOne_second_run fallback_analysis now2 expl db r
      (storedThreat fallback_analysis now expl r) h1 rfl rfl hana2 hcatT
  have hbeqT : ((storedThreat fallback_analysis now expl r).cve_id == r.cve_id) = true :=
    beq_iff_eq.mpr rfl
  refine ⟨?_, ?_, ?_⟩
  · rw [hrun1]
    simp only [store_threats, storePending]
    rw [hrun2]
  · rw [hrun1, List.filter_append]
    have h0 : db.filter (fun t => t.cve_id == r.cve_id) = [] := by
      rw [List.filter_eq_nil_iff]
      intro x hx
      simpa [beq_iff_eq] using h1 x hx
    rw [h0]
    simp [List.filter, hbeqT]
  · rw [hrun1]
    intro t htm hteq
    rcases List.mem_append.mp htm with hmem | hmem
    · exact absurd hteq (h1 t hmem)
    · obtain rfl : t = storedThreat fallback_analysis now expl r := by
        simpa using hmem
      exact ⟨rfl, rfl, rfl, rfl, rfl, rfl, rfl, rfl, rfl, rfl⟩

/-- C1 witness: the idempotent-upsert theorem applied to the concrete
record `sampleRecord` over an empty table. -/
theorem C1_upsert_idempotent_witness :
    (store_threats fallback_analysis 1 []
        (store_threats fallback_analysis 0 [] [] [sampleRecord] CommitOutcome.ok).1
        [sampleRecord] CommitOutcome.ok).1 =
      (store_threats fallback_analysis 0 [] [] [sampleRecord] CommitOutcome.ok).1 ∧
    (((store_threats fallback_analysis 0 [] [] [sampleRecord] CommitOutcome.ok).1).filter
        (fun t => t.cve_id == sampleRecord.cve_id)).length = 1 ∧
    (∀ t ∈ (store_threats fallback_analysis 0 [] [] [sampleRecord] CommitOutcome.ok).1,
      t.cve_id = sampleRecord.cve_id →
        t.title = sampleRecord.title ∧ t.description = sampleRecord.description ∧
        t.cvss_score = sampleRecord.cvss_score ∧ t.severity = sampleRecord.severity ∧
        t.published_date = sampleRecord.published_date ∧
        t.modified_date = sampleRecord.modified_date ∧
        t.affected_products = sampleRecord.affected_products ∧
        t.attack_vector = sampleRecord.attack_vector ∧
        t.analysis.isSome = true ∧ t.categories.length = 1) :=
  C1_upsert_idempotent 0 1 [] [] sampleRecord (by simp)
    (fun c hc => by
      have h5 : (5 : ℚ) = c := by simpa [sampleRecord] using hc
      rw [← h5]
      norm_num)
